import Mathlib

/-!
Verification of the stereo VSLAM node
(`vslam_system/src/nodes/ptcloud_vslam_node.cpp`).

The file shallowly embeds the node's logic:

* `publishPointclouds` — the colorized point-cloud extraction
  (source lines 157–204), translated as a fold over the track indices
  which mutates a pre-resized cloud, exactly as the C++ loop does;
* `imageCb` — the synchronized-frame callback (source lines 101–153):
  image decoding with its try/catch, the call to the external
  `VslamSystem::addFrame`, and the refinement-scheduling test
  `size > 1 && size % LARGE_SBA_INTERVAL == 0`;
* `configCb` and a reachable-state machine for the node, covering the
  dynamic reconfigure path (source lines 91–98) and the
  `dynamic_cast<AnyDetector*>` performed there.

The external map optimizer (`VslamSystem::addFrame`, `refine`) lives in
a library that is not part of the sources; it enters the embedding as
oracle parameters, modelled from the spec where its behaviour matters.
-/

namespace Vslam

/-- One projection record (`sba::Proj`) as read by `publishPointclouds`:
only the `isValid` and `useCovar` flags are consulted. -/
structure Proj where
  isValid : Bool
  useCovar : Bool
deriving Repr, DecidableEq

/-- A track's 3D position, `tracks[i].point(0..2)`.  The optimizer stores
doubles; the embedding uses integers, which is faithful for the exact
component permutation and negation the export performs. -/
structure Point3 where
  px : Int
  py : Int
  pz : Int
deriving Repr, DecidableEq

/-- One landmark track (`sba.tracks[i]`): a 3D point and its projection
map.  `ProjMap` (a `std::map<int, Proj>`) is embedded as an association
list from frame index (the map key, `itr->first`) to projection. -/
structure Track where
  point : Point3
  projections : List (Nat × Proj)
deriving Repr, DecidableEq

/-- The slice of `SysSBA` state the node observes: the node count
(`sba.nodes.size()`) and the track list (`sba.tracks`). -/
structure SysSBA where
  nodes : Nat
  tracks : List Track
deriving Repr, DecidableEq

/-- One exported `pcl::PointXYZRGB` point. -/
structure CloudPoint where
  x : Int
  y : Int
  z : Int
  rgb : Nat
deriving Repr, DecidableEq

/-- The value a `pcl::PointXYZRGB` slot holds after
`cloud.points.resize(...)` and before the loop writes it. -/
def defaultCloudPoint : CloudPoint :=
  { x := 0, y := 0, z := 0, rgb := 0 }

/-- The projection scan of `publishPointclouds` (source lines 167–177):
walk the projection map; a projection with `isValid = false` is skipped
(`continue`); otherwise `useCovar` is ORed into `pointplane` and the
frame index is maxed into `lastframe`, both starting from
`pointplane = false`, `lastframe = 0`. -/
def scanProjections (prjs : List (Nat × Proj)) : Bool × Nat :=
  prjs.foldl
    (fun acc p =>
      if p.2.isValid then (acc.1 || p.2.useCovar, max p.1 acc.2) else acc)
    (false, 0)

/-- The color lookup of `publishPointclouds` (source lines 185–194),
evaluated in order. -/
def trackColor (pointplane : Bool) (lastframe : Nat) : Nat × Nat × Nat :=
  if !pointplane then (255, 255, 255)
  else if lastframe == 1 then (255, 0, 0)
  else if lastframe == 2 then (0, 255, 0)
  else if lastframe == 3 then (0, 0, 255)
  else (150, 150, 150)

/-- The RGB packing of source line 196: `(r << 16) | (g << 8) | b`. -/
def packRGB (r g b : Nat) : Nat :=
  (r <<< 16) ||| (g <<< 8) ||| b

/-- The cloud entry the loop body writes for a track it does not skip:
position remapped by `x := point(2)`, `y := -point(0)`, `z := -point(1)`
(source lines 179–181) and the packed color. -/
def fillPoint (t : Track) : CloudPoint :=
  let pl := scanProjections t.projections
  let c := trackColor pl.1 pl.2
  { x := t.point.pz
    y := -t.point.px
    z := -t.point.py
    rgb := packRGB c.1 c.2.1 c.2.2 }

/-- One iteration of the `publishPointclouds` loop (source lines
162–198) at track index `i`, acting on the pair (sba state, cloud):
if the track has fewer than 2 projections the iteration `continue`s,
leaving the pre-resized slot untouched; otherwise it overwrites slot
`i` with the computed point.  The sba component is only read. -/
def publishStep (tracks : List Track) (st : SysSBA × List CloudPoint)
    (i : Nat) : SysSBA × List CloudPoint :=
  match tracks[i]? with
  | none => st
  | some t =>
      if t.projections.length < 2 then st
      else (st.1, st.2.set i (fillPoint t))

/-- `publishPointclouds` (source lines 157–204): resize the cloud to
`sba.tracks.size()` default slots, run the loop over all indices, and
return the (unmodified) sba state together with the cloud that is
published on `"/pgraph"`. -/
def publishPointclouds (sba : SysSBA) : SysSBA × List CloudPoint :=
  (List.range sba.tracks.length).foldl (publishStep sba.tracks)
    (sba, List.replicate sba.tracks.length defaultCloudPoint)

/-- The entry the finished loop leaves at a track's index: the default
slot for a skipped track, the computed point otherwise. -/
def exportTrack (t : Track) : CloudPoint :=
  if t.projections.length < 2 then defaultCloudPoint else fillPoint t

/-- The axis remap applied by the export (source lines 179–181),
as a self-map of 3D points: `(x, y, z) ↦ (z, -x, -y)`. -/
def remap (p : Point3) : Point3 :=
  { px := p.pz, py := -p.px, pz := -p.py }

/-! ## The synchronized-frame callback `imageCb` -/

/-- A raw `sensor_msgs::Image` as seen by `imgMsgToCv`: either it
converts to a mono8 `cv::Mat` (carried as an opaque payload) or the
conversion throws `CvBridgeException`. -/
structure RawImage where
  encodingOk : Bool
  data : Nat
deriving Repr, DecidableEq

/-- `CvBridge::imgMsgToCv(msg, "mono8")`: `none` models the thrown
`CvBridgeException`. -/
def imgMsgToCv (img : RawImage) : Option Nat :=
  if img.encodingOk then some img.data else none

/-- A raw `sensor_msgs::PointCloud2` payload as handed to
`pcl::fromROSMsg`.  `wellFormed = false` marks a malformed payload. -/
structure RawCloud where
  wellFormed : Bool
  data : Nat
deriving Repr, DecidableEq

/-- `pcl::fromROSMsg(*ptcloud_msg, ptcloud)` (source line 129).  The
call sits outside the try/catch of lines 111–118, whose handler
catches only `sensor_msgs::CvBridgeException`: the callback has no
logging or skipping path for a malformed point-cloud payload.
Conversion is embedded as total — it yields a (possibly meaningless)
cloud payload that the callback cannot tell apart from a well-formed
one, and control proceeds to `addFrame` either way. -/
def fromROSMsg (c : RawCloud) : Nat :=
  c.data

/-- One aligned tuple delivered by the approximate-time synchronizer:
left/right images, the left camera-info sequence number used for the
log line, and the raw point cloud payload. -/
structure Arrival where
  lImage : RawImage
  rImage : RawImage
  lInfoSeq : Nat
  ptcloud : RawCloud
deriving Repr, DecidableEq

/-- What one `imageCb` invocation did: whether the conversion error was
logged (`ROS_ERROR` in the catch block), whether the external `addFrame`
was invoked, and whether the full refinement (`refine`) was invoked. -/
structure CbTrace where
  errorLogged : Bool
  addFrameCalled : Bool
  refineCalled : Bool
deriving Repr, DecidableEq

/-- The refinement interval constant of source line 147
(`const int LARGE_SBA_INTERVAL = 1`). -/
def LARGE_SBA_INTERVAL : Nat := 1

/-- The type of the external map optimizer's frame fusion.

Modelled from the spec: `VslamSystem::addFrame` lives in the
`vslam_system` library, not in the sources at hand.  The spec gives its
contract as `addFrame(cameraParams, leftImage, rightImage, pointCloud)
-> accepted: bool`, with the invariant that rejected frames leave no
trace in the map; `none` is a rejection (the caller's map state is kept
unchanged), `some sba'` is acceptance with the updated map. -/
def AddFrameOracle : Type :=
  SysSBA → Nat → Nat → Nat → Option SysSBA

/-- The type of the external `VslamSystem::refine`.

Modelled from the spec: a blocking, synchronous full re-optimization of
the map; its numerical effect is opaque to the node. -/
def RefineOracle : Type :=
  SysSBA → SysSBA

/-- `StereoVslamNode::imageCb` (source lines 101–153), restricted to
its effect on the sba state, with the externally observable actions
recorded in a `CbTrace`:

* both images are converted; a `CvBridgeException` logs an error and
  returns before `addFrame` (lines 110–118);
* the point cloud is converted by `pcl::fromROSMsg` (line 129),
  outside the try/catch and with no error path of its own;
* `addFrame` is called; on rejection the body is skipped (line 131);
* on acceptance, `size = sba_.nodes.size()` is read (line 133), the
  point cloud is published when there are subscribers (lines 144–145),
  and `refine` runs iff `size > 1 && size % LARGE_SBA_INTERVAL == 0`
  (lines 147–151). -/
def imageCb (addFrame : AddFrameOracle) (refine : RefineOracle)
    (hasSubscribers : Bool) (sba : SysSBA) (a : Arrival) :
    SysSBA × CbTrace :=
  match imgMsgToCv a.lImage, imgMsgToCv a.rImage with
  | some left, some right =>
      match addFrame sba left right (fromROSMsg a.ptcloud) with
      | some sba1 =>
          let size := sba1.nodes
          let sba2 :=
            if hasSubscribers then (publishPointclouds sba1).1 else sba1
          if size > 1 && size % LARGE_SBA_INTERVAL == 0 then
            (refine sba2,
             { errorLogged := false, addFrameCalled := true,
               refineCalled := true })
          else
            (sba2,
             { errorLogged := false, addFrameCalled := true,
               refineCalled := false })
      | none =>
          (sba,
           { errorLogged := false, addFrameCalled := true,
             refineCalled := false })
  | _, _ =>
      (sba,
       { errorLogged := true, addFrameCalled := false,
         refineCalled := false })

/-- Run `imageCb` over a sequence of aligned tuples, collecting the
trace of each invocation. -/
def runArrivals (addFrame : AddFrameOracle) (refine : RefineOracle)
    (hasSubscribers : Bool) (sba : SysSBA) :
    List Arrival → SysSBA × List CbTrace
  | [] => (sba, [])
  | a :: as =>
      let r := imageCb addFrame refine hasSubscribers sba a
      let rest := runArrivals addFrame refine hasSubscribers r.1 as
      (rest.1, r.2 :: rest.2)

/-! ## The dynamic reconfigure callback and the node state machine -/

/-- The fields of `vslam_system::StereoVslamNodeConfig` the callback
consumes: the detector parameters forwarded to `AnyDetector::update`
(kept opaque as one payload) plus `vo_ransac_iterations` and
`vo_polish`. -/
structure StereoVslamNodeConfig where
  detectorParams : Nat
  vo_ransac_iterations : Nat
  vo_polish : Bool
deriving Repr, DecidableEq

/-- The mutable parameter state of a `vslam_system::AnyDetector`
instance.  Modelled from the spec: `AnyDetector` lives in
`vslam_system/any_detector.h`, outside the sources at hand; its
`update(config)` applies the detector parameters of the config. -/
structure AnyDetectorState where
  params : Nat
deriving Repr, DecidableEq

/-- The dynamic type of an object held through a
`cv::Ptr<cv::FeatureDetector>` handle: either a
`vslam_system::AnyDetector`, or any other concrete
`cv::FeatureDetector` subclass (tagged opaquely). -/
inductive FeatureDetector where
  | anyDetector (st : AnyDetectorState)
  | otherDetector (tag : Nat)
deriving Repr, DecidableEq

/-- `dynamic_cast<vslam_system::AnyDetector*>`: succeeds exactly when
the handle's dynamic type is `AnyDetector`, yields null otherwise. -/
def dynamicCastAnyDetector : FeatureDetector → Option AnyDetectorState
  | FeatureDetector.anyDetector st => some st
  | FeatureDetector.otherDetector _ => none

/-- `AnyDetector::update(config)`.  Modelled from the spec: applies the
late-bound detector parameters carried by the config. -/
def anyDetectorUpdate (_d : AnyDetectorState)
    (cfg : StereoVslamNodeConfig) : AnyDetectorState :=
  { params := cfg.detectorParams }

/-- The node state the two callbacks touch: the `detector_` member, the
frame processor's detector handle, the VO RANSAC/polish settings held
by the `VslamSystem`, and the sba state. -/
structure NodeState where
  detector : FeatureDetector
  frameProcessorDetector : FeatureDetector
  voRansacIt : Nat
  voPolish : Bool
  sba : SysSBA
deriving Repr, DecidableEq

/-- The state established by the `StereoVslamNode` constructor (source
lines 60–89): `detector_` is initialized to a fresh
`vslam_system::AnyDetector` (line 64); the frame processor starts with
whatever detector the `VslamSystem` constructor installed (opaque,
external); the map starts empty. -/
def initNodeState : NodeState :=
  { detector := FeatureDetector.anyDetector { params := 0 }
    frameProcessorDetector := FeatureDetector.otherDetector 0
    voRansacIt := 0
    voPolish := false
    sba := { nodes := 0, tracks := [] } }

/-- `StereoVslamNode::configCb` (source lines 91–98): downcast
`detector_` to `AnyDetector*` and call `update` on it, hand `detector_`
to the frame processor, then forward `vo_ransac_iterations` and
`vo_polish` to the `VslamSystem`.  `none` models the null-pointer
dereference that would occur if the downcast failed. -/
def configCb (st : NodeState) (cfg : StereoVslamNodeConfig) :
    Option NodeState :=
  match dynamicCastAnyDetector st.detector with
  | none => none
  | some d =>
      let d1 := anyDetectorUpdate d cfg
      some
        { st with
          detector := FeatureDetector.anyDetector d1
          frameProcessorDetector := FeatureDetector.anyDetector d1
          voRansacIt := cfg.vo_ransac_iterations
          voPolish := cfg.vo_polish }

/-- `imageCb` lifted to the node state: it reads and writes only the
sba state, never `detector_`. -/
def nodeImageCb (addFrame : AddFrameOracle) (refine : RefineOracle)
    (hasSubscribers : Bool) (st : NodeState) (a : Arrival) : NodeState :=
  { st with sba := (imageCb addFrame refine hasSubscribers st.sba a).1 }

/-- The states the node can be in: the constructed state, followed by
any interleaving of successful reconfigure callbacks and image
callbacks. -/
inductive Reachable (addFrame : AddFrameOracle) (refine : RefineOracle)
    (hasSubscribers : Bool) : NodeState → Prop
  | init : Reachable addFrame refine hasSubscribers initNodeState
  | config {st st' : NodeState} {cfg : StereoVslamNodeConfig} :
      Reachable addFrame refine hasSubscribers st →
      configCb st cfg = some st' →
      Reachable addFrame refine hasSubscribers st'
  | image {st : NodeState} (a : Arrival) :
      Reachable addFrame refine hasSubscribers st →
      Reachable addFrame refine hasSubscribers
        (nodeImageCb addFrame refine hasSubscribers st a)

/-! ## Concrete instances used for witnesses and counterexamples -/

/-- A track with a single (valid) projection: below the 2-projection
threshold of the export loop. -/
def oneProjTrack : Track :=
  { point := { px := 1, py := 2, pz := 3 }
    projections := [(1, { isValid := true, useCovar := false })] }

/-- A map holding only `oneProjTrack`. -/
def oneProjSba : SysSBA :=
  { nodes := 3, tracks := [oneProjTrack] }

/-- A track with two valid projections, neither using a covariance
constraint. -/
def twoProjTrack : Track :=
  { point := { px := 4, py := 5, pz := 6 }
    projections :=
      [(1, { isValid := true, useCovar := false }),
       (2, { isValid := true, useCovar := false })] }

/-- An aligned tuple whose images both convert successfully and whose
point cloud is well-formed. -/
def okArrival : Arrival :=
  { lImage := { encodingOk := true, data := 10 }
    rImage := { encodingOk := true, data := 11 }
    lInfoSeq := 0
    ptcloud := { wellFormed := true, data := 12 } }

/-- An aligned tuple whose left image fails to convert
(`CvBridgeException`). -/
def badArrival : Arrival :=
  { lImage := { encodingOk := false, data := 10 }
    rImage := { encodingOk := true, data := 11 }
    lInfoSeq := 1
    ptcloud := { wellFormed := true, data := 12 } }

/-- An aligned tuple whose images convert but whose point-cloud
payload is malformed. -/
def badCloudArrival : Arrival :=
  { lImage := { encodingOk := true, data := 10 }
    rImage := { encodingOk := true, data := 11 }
    lInfoSeq := 2
    ptcloud := { wellFormed := false, data := 99 } }

/-- An `addFrame` oracle that accepts every frame and grows the map by
exactly one node: it realizes the accepted-frame node counts
1, 2, 3, 4, … from an empty map. -/
def incAddFrame : AddFrameOracle :=
  fun sba _ _ _ => some { sba with nodes := sba.nodes + 1 }

/-- An `addFrame` oracle that rejects every frame. -/
def rejectAddFrame : AddFrameOracle :=
  fun _ _ _ _ => none

/-- A `refine` oracle that leaves the map unchanged (full refinement
re-optimizes poses; it creates no nodes). -/
def idRefine : RefineOracle := fun sba => sba

/-- A concrete reconfigure request. -/
def sampleConfig : StereoVslamNodeConfig :=
  { detectorParams := 7, vo_ransac_iterations := 100, vo_polish := true }

/-- A map holding only `twoProjTrack`. -/
def twoProjSba : SysSBA :=
  { nodes := 2, tracks := [twoProjTrack] }

/-! ## Spec-side formulations (for comparison with the code) -/

/-- The spec's `pointplane` value for one track: the OR, over the
projections that are not skipped for `isValid = false`, of
`useCovar`. -/
def specPointplane (t : Track) : Bool :=
  (t.projections.filter fun p => p.2.isValid).any fun p => p.2.useCovar

/-- The spec's `lastFrame` value for one track: the MAX, over the
projections that are not skipped for `isValid = false`, of the frame
index, with 0 when no valid projection exists. -/
def specLastFrame (t : Track) : Nat :=
  (t.projections.filter fun p => p.2.isValid).foldl (fun k p => max p.1 k) 0

/-- The spec's color lookup, evaluated in order: not-pointplane →
white; pointplane and `lastFrame = 1` → red; `= 2` → green; `= 3` →
blue; otherwise neutral gray. -/
def specColor (pointplane : Bool) (lastFrame : Nat) : Nat × Nat × Nat :=
  if pointplane = false then (255, 255, 255)
  else if lastFrame = 1 then (255, 0, 0)
  else if lastFrame = 2 then (0, 255, 0)
  else if lastFrame = 3 then (0, 0, 255)
  else (150, 150, 150)

/-- The spec's color packing, `(r << 16) | (g << 8) | b`, on an RGB
triple. -/
def specPackColor (c : Nat × Nat × Nat) : Nat :=
  (c.1 <<< 16) ||| (c.2.1 <<< 8) ||| c.2.2

/-! ## Characterization of the export loop -/

theorem publishStep_fst (tracks : List Track)
    (st : SysSBA × List CloudPoint) (i : Nat) :
    (publishStep tracks st i).1 = st.1 := by
  unfold publishStep
  cases tracks[i]? with
  | none => rfl
  | some t =>
      by_cases h : t.projections.length < 2 <;> simp [h]

theorem publishStep_length (tracks : List Track)
    (st : SysSBA × List CloudPoint) (i : Nat) :
    (publishStep tracks st i).2.length = st.2.length := by
  unfold publishStep
  cases tracks[i]? with
  | none => rfl
  | some t =>
      by_cases h : t.projections.length < 2 <;> simp [h]

theorem publishStep_getElem_ne (tracks : List Track)
    (st : SysSBA × List CloudPoint) (i j : Nat) (h : i ≠ j) :
    (publishStep tracks st i).2[j]? = st.2[j]? := by
  unfold publishStep
  cases tracks[i]? with
  | none => rfl
  | some t =>
      by_cases h2 : t.projections.length < 2 <;>
        simp [h2, List.getElem?_set_ne h]

theorem publishStep_getElem_self (tracks : List Track)
    (st : SysSBA × List CloudPoint) (i : Nat) (t : Track)
    (ht : tracks[i]? = some t) (hlen : i < st.2.length)
    (hdef : st.2[i]? = some defaultCloudPoint) :
    (publishStep tracks st i).2[i]? = some (exportTrack t) := by
  unfold publishStep
  rw [ht]
  by_cases h2 : t.projections.length < 2
  · simp only [if_pos h2]
    rw [hdef]
    simp [exportTrack, h2]
  · simp only [if_neg h2]
    rw [List.getElem?_set_self hlen]
    simp [exportTrack, h2]

theorem publishFold_fst (tracks : List Track) (l : List Nat)
    (st : SysSBA × List CloudPoint) :
    (l.foldl (publishStep tracks) st).1 = st.1 := by
  induction l generalizing st with
  | nil => rfl
  | cons a l ih => rw [List.foldl_cons, ih, publishStep_fst]

theorem publishFold_length (tracks : List Track) (l : List Nat)
    (st : SysSBA × List CloudPoint) :
    (l.foldl (publishStep tracks) st).2.length = st.2.length := by
  induction l generalizing st with
  | nil => rfl
  | cons a l ih => rw [List.foldl_cons, ih, publishStep_length]

theorem publishFold_getElem (sba : SysSBA) (n j : Nat) (t : Track)
    (ht : sba.tracks[j]? = some t) :
    (((List.range n).foldl (publishStep sba.tracks)
        (sba, List.replicate sba.tracks.length defaultCloudPoint)).2)[j]? =
      if j < n then some (exportTrack t) else some defaultCloudPoint := by
  have hj : j < sba.tracks.length := by
    by_contra h
    rw [List.getElem?_eq_none (Nat.le_of_not_lt h)] at ht
    exact Option.noConfusion ht
  induction n with
  | zero =>
      simp [List.getElem?_replicate_of_lt hj]
  | succ n ih =>
      rw [List.range_succ, List.foldl_append, List.foldl_cons,
        List.foldl_nil]
      by_cases hjn : j = n
      · subst hjn
        have hdef :
            (((List.range j).foldl (publishStep sba.tracks)
              (sba, List.replicate sba.tracks.length
                defaultCloudPoint)).2)[j]? = some defaultCloudPoint := by
          rw [ih]; simp
        have hlen :
            j < (((List.range j).foldl (publishStep sba.tracks)
              (sba, List.replicate sba.tracks.length
                defaultCloudPoint)).2).length := by
          rw [publishFold_length, List.length_replicate]; exact hj
        rw [publishStep_getElem_self sba.tracks _ j t ht hlen hdef]
        simp
      · rw [publishStep_getElem_ne _ _ _ _ (Ne.symm hjn), ih]
        have hiff : j < n + 1 ↔ j < n :=
          ⟨fun h => Nat.lt_of_le_of_ne (Nat.le_of_lt_succ h) hjn,
           fun h => Nat.lt_succ_of_lt h⟩
        simp [hiff]

theorem publishPointclouds_fst (sba : SysSBA) :
    (publishPointclouds sba).1 = sba :=
  publishFold_fst sba.tracks _ _

theorem publishPointclouds_snd (sba : SysSBA) :
    (publishPointclouds sba).2 = sba.tracks.map exportTrack := by
  apply List.ext_getElem?
  intro j
  by_cases hj : j < sba.tracks.length
  · have ht : sba.tracks[j]? = some (sba.tracks.get ⟨j, hj⟩) :=
      List.getElem?_eq_getElem hj
    rw [publishPointclouds, publishFold_getElem sba _ j _ ht, if_pos hj,
      List.getElem?_map, ht]
    rfl
  · have h1 : (publishPointclouds sba).2.length = sba.tracks.length := by
      rw [publishPointclouds, publishFold_length, List.length_replicate]
    rw [List.getElem?_eq_none (by rw [h1]; exact Nat.le_of_not_lt hj),
      List.getElem?_eq_none
        (by rw [List.length_map]; exact Nat.le_of_not_lt hj)]

theorem publishPointclouds_length (sba : SysSBA) :
    (publishPointclouds sba).2.length = sba.tracks.length := by
  rw [publishPointclouds_snd, List.length_map]

/-! ## Characterization of the projection scan -/

theorem scanProjections_aux (prjs : List (Nat × Proj)) (b : Bool) (m : Nat) :
    prjs.foldl
      (fun acc p =>
        if p.2.isValid then (acc.1 || p.2.useCovar, max p.1 acc.2) else acc)
      (b, m) =
    ((b || (prjs.filter fun p => p.2.isValid).any fun p => p.2.useCovar),
     (prjs.filter fun p => p.2.isValid).foldl (fun k p => max p.1 k) m) := by
  induction prjs generalizing b m with
  | nil => simp
  | cons p ps ih =>
      by_cases hv : p.2.isValid
      · simp [hv, ih, Bool.or_assoc]
      · simp [hv, ih]

theorem scanProjections_spec (prjs : List (Nat × Proj)) :
    scanProjections prjs =
      (((prjs.filter fun p => p.2.isValid).any fun p => p.2.useCovar),
       (prjs.filter fun p => p.2.isValid).foldl (fun k p => max p.1 k) 0) := by
  unfold scanProjections
  rw [scanProjections_aux]
  simp

/-! ## Helper lemmas for the frame callback -/

theorem imageCb_decodeError (addFrame : AddFrameOracle)
    (refine : RefineOracle) (subs : Bool) (sba : SysSBA) (a : Arrival)
    (h : imgMsgToCv a.lImage = none ∨ imgMsgToCv a.rImage = none) :
    imageCb addFrame refine subs sba a =
      (sba, { errorLogged := true, addFrameCalled := false,
              refineCalled := false }) := by
  unfold imageCb
  rcases h with h | h
  · rw [h]
  · rw [h]
    cases imgMsgToCv a.lImage <;> rfl

theorem runArrivals_append (addFrame : AddFrameOracle)
    (refine : RefineOracle) (subs : Bool) (sba : SysSBA)
    (xs ys : List Arrival) :
    runArrivals addFrame refine subs sba (xs ++ ys) =
      ((runArrivals addFrame refine subs
          (runArrivals addFrame refine subs sba xs).1 ys).1,
       (runArrivals addFrame refine subs sba xs).2 ++
         (runArrivals addFrame refine subs
           (runArrivals addFrame refine subs sba xs).1 ys).2) := by
  induction xs generalizing sba with
  | nil => simp [runArrivals]
  | cons a xs ih =>
      simp only [List.cons_append, runArrivals, List.append_eq]
      rw [ih]

theorem runArrivals_decodeError_cons (addFrame : AddFrameOracle)
    (refine : RefineOracle) (subs : Bool) (sba : SysSBA) (a : Arrival)
    (ys : List Arrival)
    (h : imgMsgToCv a.lImage = none ∨ imgMsgToCv a.rImage = none) :
    runArrivals addFrame refine subs sba (a :: ys) =
      ((runArrivals addFrame refine subs sba ys).1,
       { errorLogged := true, addFrameCalled := false,
         refineCalled := false } ::
         (runArrivals addFrame refine subs sba ys).2) := by
  simp only [runArrivals]
  rw [imageCb_decodeError addFrame refine subs sba a h]

/-- The code's in-order color lookup agrees pointwise with the spec's
formulation of the same lookup. -/
theorem trackColor_eq_specColor (b : Bool) (n : Nat) :
    trackColor b n = specColor b n := by
  cases b <;> simp [trackColor, specColor]

/-- In every reachable node state, `detector_` holds an `AnyDetector`:
it is constructed as one and is never reassigned to anything else. -/
theorem reachable_detector_any (addFrame : AddFrameOracle)
    (refine : RefineOracle) (subs : Bool) (st : NodeState)
    (h : Reachable addFrame refine subs st) :
    ∃ d, st.detector = FeatureDetector.anyDetector d := by
  induction h with
  | init => exact ⟨{ params := 0 }, rfl⟩
  | config hst hcfg ih =>
      obtain ⟨d, hd⟩ := ih
      unfold configCb at hcfg
      rw [hd] at hcfg
      simp only [dynamicCastAnyDetector] at hcfg
      injection hcfg with h1
      subst h1
      exact ⟨_, rfl⟩
  | image a hst ih =>
      obtain ⟨d, hd⟩ := ih
      exact ⟨d, hd⟩

/-! ## Claim theorems -/

/-- C1: for every accepted frame, after it is incorporated the callback
triggers a full refinement iff the current map node count `n` satisfies
`n > 1` and `n % LARGE_SBA_INTERVAL = 0`, with the interval fixed at 1;
for the accepted-frame node counts 1, 2, 3, 4 the refine trace is
[false, true, true, true]. -/
theorem refine_trigger_iff (addFrame : AddFrameOracle)
    (refine : RefineOracle) (subs : Bool) (sba : SysSBA) (a : Arrival)
    (left right : Nat)
    (hl : imgMsgToCv a.lImage = some left)
    (hr : imgMsgToCv a.rImage = some right)
    (sba1 : SysSBA)
    (hacc : addFrame sba left right (fromROSMsg a.ptcloud) = some sba1) :
    (((imageCb addFrame refine subs sba a).2.refineCalled = true) ↔
      (1 < sba1.nodes ∧ sba1.nodes % LARGE_SBA_INTERVAL = 0)) ∧
    ((runArrivals incAddFrame idRefine false { nodes := 0, tracks := [] }
        [okArrival, okArrival, okArrival, okArrival]).2.map
        CbTrace.refineCalled = [false, true, true, true]) := by
  constructor
  · unfold imageCb
    rw [hl, hr]
    simp only [hacc]
    by_cases hb :
        (decide (sba1.nodes > 1) && (sba1.nodes % LARGE_SBA_INTERVAL == 0))
          = true
    · rw [if_pos hb]
      simp only [Bool.and_eq_true, decide_eq_true_eq, beq_iff_eq] at hb
      simp [hb.1, hb.2]
    · rw [if_neg hb]
      simp only [Bool.and_eq_true, decide_eq_true_eq, beq_iff_eq] at hb
      simp only [not_and] at hb
      constructor
      · intro hfalse
        exact absurd hfalse (by simp)
      · intro hcond
        exact absurd (hb hcond.1 hcond.2) (by simp [hcond.2])
  · rfl

/-- C1 witness: the iff and the four-frame trace at a concrete run. -/
theorem refine_trigger_iff_witness :
    (((imageCb incAddFrame idRefine false { nodes := 0, tracks := [] }
        okArrival).2.refineCalled = true) ↔
      (1 < ({ nodes := 1, tracks := [] } : SysSBA).nodes ∧
        ({ nodes := 1, tracks := [] } : SysSBA).nodes %
          LARGE_SBA_INTERVAL = 0)) ∧
    ((runArrivals incAddFrame idRefine false { nodes := 0, tracks := [] }
        [okArrival, okArrival, okArrival, okArrival]).2.map
        CbTrace.refineCalled = [false, true, true, true]) :=
  refine_trigger_iff incAddFrame idRefine false
    { nodes := 0, tracks := [] } okArrival 10 11 rfl rfl
    { nodes := 1, tracks := [] } rfl

/-- C2 counterexample: on a map whose single track has one projection,
the exported list does not have one entry per retained track — the
claim would make it empty, but the pre-resized slot of the skipped
track remains in the output. -/
theorem export_entry_count_cex :
    ¬ ((publishPointclouds oneProjSba).2.length =
        (oneProjSba.tracks.filter
          fun t => 2 ≤ t.projections.length).length) := by
  decide

/-- C2 (amended): the exported list has exactly one entry per track of
the map; a track with at least 2 projections receives the computed
colored entry, and a track with fewer than 2 projections is skipped by
the fill loop but still contributes its pre-resized default slot to the
output list. -/
theorem export_one_entry_per_track (sba : SysSBA) (i : Nat) (t : Track)
    (ht : sba.tracks[i]? = some t) :
    (publishPointclouds sba).2.length = sba.tracks.length ∧
    (publishPointclouds sba).2[i]? =
      some (if t.projections.length < 2 then defaultCloudPoint
            else fillPoint t) := by
  refine ⟨publishPointclouds_length sba, ?_⟩
  rw [publishPointclouds_snd, List.getElem?_map, ht]
  rfl

/-- C2 witness: the amended claim at the one-track map whose track has
a single projection. -/
theorem export_one_entry_per_track_witness :
    (publishPointclouds oneProjSba).2.length =
      oneProjSba.tracks.length ∧
    (publishPointclouds oneProjSba).2[0]? =
      some (if oneProjTrack.projections.length < 2 then defaultCloudPoint
            else fillPoint oneProjTrack) :=
  export_one_entry_per_track oneProjSba 0 oneProjTrack rfl

/-- C9: the published cloud has exactly as many entries as the map has
tracks; a track skipped by the at-least-2-projections filter still
occupies its index in the output, holding the default-constructed
entry rather than being omitted. -/
theorem export_skipped_track_retains_slot (sba : SysSBA) (i : Nat)
    (t : Track) (ht : sba.tracks[i]? = some t)
    (hskip : t.projections.length < 2) :
    (publishPointclouds sba).2.length = sba.tracks.length ∧
    (publishPointclouds sba).2[i]? = some defaultCloudPoint := by
  refine ⟨publishPointclouds_length sba, ?_⟩
  rw [publishPointclouds_snd, List.getElem?_map, ht]
  simp [exportTrack, hskip]

/-- C9 witness: the skipped one-projection track keeps its default slot
at index 0. -/
theorem export_skipped_track_retains_slot_witness :
    (publishPointclouds oneProjSba).2.length =
      oneProjSba.tracks.length ∧
    (publishPointclouds oneProjSba).2[0]? = some defaultCloudPoint :=
  export_skipped_track_retains_slot oneProjSba 0 oneProjTrack rfl
    (by decide)

/-- C3: for every retained track, the scan over its projections
(skipping `isValid = false`) yields `pointplane` as the OR of
`useCovar` and `lastFrame` as the MAX of the frame indices (0 when no
valid projection), the color is the in-order lookup on those two
values, and it is packed as `(r << 16) | (g << 8) | b` into the
exported entry's color field. -/
theorem export_color_characterization (sba : SysSBA) (i : Nat)
    (t : Track) (ht : sba.tracks[i]? = some t)
    (hkeep : 2 ≤ t.projections.length) :
    (publishPointclouds sba).2[i]? =
      some { x := t.point.pz, y := -t.point.px, z := -t.point.py,
             rgb := specPackColor
               (specColor (specPointplane t) (specLastFrame t)) } := by
  have h2 : ¬ t.projections.length < 2 := Nat.not_lt.mpr hkeep
  rw [publishPointclouds_snd, List.getElem?_map, ht]
  show some (exportTrack t) = _
  unfold exportTrack
  rw [if_neg h2]
  simp only [fillPoint, scanProjections_spec, trackColor_eq_specColor]
  rfl

/-- C3 witness: the two-valid-projection, no-covariance track exports
as white. -/
theorem export_color_characterization_witness :
    (publishPointclouds twoProjSba).2[0]? =
      some { x := twoProjTrack.point.pz, y := -twoProjTrack.point.px,
             z := -twoProjTrack.point.py,
             rgb := specPackColor
               (specColor (specPointplane twoProjTrack)
                 (specLastFrame twoProjTrack)) } :=
  export_color_characterization twoProjSba 0 twoProjTrack rfl (by decide)

/-- C4 counterexample: the export remap `(x, y, z) ↦ (z, -x, -y)` is
not an involution — applying it twice to (1, 2, 3) yields (-2, -3, 1),
not (1, 2, 3). -/
theorem remap_twice_cex :
    ¬ (remap (remap { px := 1, py := 2, pz := 3 }) =
        ({ px := 1, py := 2, pz := 3 } : Point3)) := by
  decide

/-- C4 (amended): the export position remap sends an internal point
(x, y, z) to (z, -x, -y) — `export.x = internal.z`,
`export.y = -internal.x`, `export.z = -internal.y` — and the remap is a
3-cycle: applying `(x, y, z) ↦ (z, -x, -y)` three times (not twice)
yields `(x, y, z)` for every point. -/
theorem export_remap_cycle (sba : SysSBA) (i : Nat) (t : Track)
    (ht : sba.tracks[i]? = some t) (hkeep : 2 ≤ t.projections.length)
    (p : Point3) :
    (publishPointclouds sba).2[i]? = some (fillPoint t) ∧
    (fillPoint t).x = t.point.pz ∧
    (fillPoint t).y = -t.point.px ∧
    (fillPoint t).z = -t.point.py ∧
    ((fillPoint t).x, (fillPoint t).y, (fillPoint t).z) =
      ((remap t.point).px, (remap t.point).py, (remap t.point).pz) ∧
    remap (remap (remap p)) = p := by
  have h2 : ¬ t.projections.length < 2 := Nat.not_lt.mpr hkeep
  refine ⟨?_, rfl, rfl, rfl, rfl, ?_⟩
  · rw [publishPointclouds_snd, List.getElem?_map, ht]
    simp [exportTrack, h2]
  · cases p
    simp [remap]

/-- C4 witness: the remap facts at the two-projection track and the
3-cycle at the concrete point (1, 2, 3). -/
theorem export_remap_cycle_witness :
    (publishPointclouds twoProjSba).2[0]? =
      some (fillPoint twoProjTrack) ∧
    (fillPoint twoProjTrack).x = twoProjTrack.point.pz ∧
    (fillPoint twoProjTrack).y = -twoProjTrack.point.px ∧
    (fillPoint twoProjTrack).z = -twoProjTrack.point.py ∧
    ((fillPoint twoProjTrack).x, (fillPoint twoProjTrack).y,
      (fillPoint twoProjTrack).z) =
      ((remap twoProjTrack.point).px, (remap twoProjTrack.point).py,
        (remap twoProjTrack.point).pz) ∧
    remap (remap (remap { px := 1, py := 2, pz := 3 })) =
      ({ px := 1, py := 2, pz := 3 } : Point3) :=
  export_remap_cycle twoProjSba 0 twoProjTrack rfl (by decide)
    { px := 1, py := 2, pz := 3 }

/-- C5 counterexample: an arrival whose point-cloud payload is
malformed is not handled as a local decode error: the callback logs
nothing and still calls `addFrame` — the conversion of source line 129
sits outside the try/catch (whose handler catches only
`sensor_msgs::CvBridgeException`), so no log-and-discard path exists
for it. -/
theorem cloud_decode_error_not_skipped_cex :
    badCloudArrival.ptcloud.wellFormed = false ∧
    ¬ ((imageCb incAddFrame idRefine false { nodes := 0, tracks := [] }
          badCloudArrival).2.errorLogged = true ∧
       (imageCb incAddFrame idRefine false { nodes := 0, tracks := [] }
          badCloudArrival).2.addFrameCalled = false) := by
  decide

/-- C5 (amended): a malformed image payload is a local, recoverable
decode error — the error is logged, the current frame is discarded
without calling `addFrame` and without touching the map, and the
pipeline processes the remaining arrivals exactly as if the malformed
arrival had not occurred.  A malformed point-cloud payload has no such
local error path: its conversion runs outside the try/catch, so for
any arrival whose images decode, nothing is logged and `addFrame` is
still called, whatever the point-cloud payload. -/
theorem decode_error_recoverable (addFrame : AddFrameOracle)
    (refine : RefineOracle) (subs : Bool) (sba : SysSBA) (a : Arrival)
    (xs ys : List Arrival) (a' : Arrival) (left' right' : Nat)
    (h : imgMsgToCv a.lImage = none ∨ imgMsgToCv a.rImage = none)
    (hl' : imgMsgToCv a'.lImage = some left')
    (hr' : imgMsgToCv a'.rImage = some right') :
    imageCb addFrame refine subs sba a =
      (sba, { errorLogged := true, addFrameCalled := false,
              refineCalled := false }) ∧
    (runArrivals addFrame refine subs sba (xs ++ a :: ys)).1 =
      (runArrivals addFrame refine subs sba (xs ++ ys)).1 ∧
    (runArrivals addFrame refine subs sba (xs ++ a :: ys)).2 =
      (runArrivals addFrame refine subs sba xs).2 ++
        { errorLogged := true, addFrameCalled := false,
          refineCalled := false } ::
        (runArrivals addFrame refine subs
          (runArrivals addFrame refine subs sba xs).1 ys).2 ∧
    (imageCb addFrame refine subs sba a').2.errorLogged = false ∧
    (imageCb addFrame refine subs sba a').2.addFrameCalled = true := by
  refine ⟨imageCb_decodeError addFrame refine subs sba a h, ?_, ?_, ?_⟩
  · rw [runArrivals_append addFrame refine subs sba xs (a :: ys),
      runArrivals_decodeError_cons addFrame refine subs _ a ys h,
      runArrivals_append addFrame refine subs sba xs ys]
  · rw [runArrivals_append addFrame refine subs sba xs (a :: ys),
      runArrivals_decodeError_cons addFrame refine subs _ a ys h]
  · unfold imageCb
    simp only [hl', hr']
    cases haf : addFrame sba left' right' (fromROSMsg a'.ptcloud) with
    | none => exact ⟨rfl, rfl⟩
    | some sba1 =>
        by_cases hb :
            (decide (sba1.nodes > 1) &&
              (sba1.nodes % LARGE_SBA_INTERVAL == 0)) = true
        · simp [hb]
        · simp [hb]

/-- C5 witness: a failing-image arrival between two good ones, and a
malformed-point-cloud arrival that is neither logged nor skipped, at a
concrete oracle and initial state. -/
theorem decode_error_recoverable_witness :
    imageCb incAddFrame idRefine false { nodes := 0, tracks := [] }
        badArrival =
      ({ nodes := 0, tracks := [] },
       { errorLogged := true, addFrameCalled := false,
         refineCalled := false }) ∧
    (runArrivals incAddFrame idRefine false { nodes := 0, tracks := [] }
        ([okArrival] ++ badArrival :: [okArrival])).1 =
      (runArrivals incAddFrame idRefine false { nodes := 0, tracks := [] }
        ([okArrival] ++ [okArrival])).1 ∧
    (runArrivals incAddFrame idRefine false { nodes := 0, tracks := [] }
        ([okArrival] ++ badArrival :: [okArrival])).2 =
      (runArrivals incAddFrame idRefine false { nodes := 0, tracks := [] }
        [okArrival]).2 ++
        { errorLogged := true, addFrameCalled := false,
          refineCalled := false } ::
        (runArrivals incAddFrame idRefine false
          (runArrivals incAddFrame idRefine false
            { nodes := 0, tracks := [] } [okArrival]).1 [okArrival]).2 ∧
    (imageCb incAddFrame idRefine false { nodes := 0, tracks := [] }
        badCloudArrival).2.errorLogged = false ∧
    (imageCb incAddFrame idRefine false { nodes := 0, tracks := [] }
        badCloudArrival).2.addFrameCalled = true :=
  decode_error_recoverable incAddFrame idRefine false
    { nodes := 0, tracks := [] } badArrival [okArrival] [okArrival]
    badCloudArrival 10 11 (Or.inl rfl) rfl rfl

/-- C6: a frame rejected by `addFrame` never reaches the refinement
test — `refine` is not called for that frame — and it leaves no trace:
the callback returns the map unchanged, so the node count is
unchanged. -/
theorem rejected_frame_no_refine (addFrame : AddFrameOracle)
    (refine : RefineOracle) (subs : Bool) (sba : SysSBA) (a : Arrival)
    (left right : Nat)
    (hl : imgMsgToCv a.lImage = some left)
    (hr : imgMsgToCv a.rImage = some right)
    (hrej : addFrame sba left right (fromROSMsg a.ptcloud) = none) :
    imageCb addFrame refine subs sba a =
      (sba, { errorLogged := false, addFrameCalled := true,
              refineCalled := false }) ∧
    (imageCb addFrame refine subs sba a).2.refineCalled = false ∧
    (imageCb addFrame refine subs sba a).1.nodes = sba.nodes := by
  have he : imageCb addFrame refine subs sba a =
      (sba, { errorLogged := false, addFrameCalled := true,
              refineCalled := false }) := by
    unfold imageCb
    rw [hl, hr]
    simp only [hrej]
  exact ⟨he, by rw [he], by rw [he]⟩

/-- C6 witness: a rejecting oracle on a concrete map and arrival. -/
theorem rejected_frame_no_refine_witness :
    imageCb rejectAddFrame idRefine false { nodes := 5, tracks := [] }
        okArrival =
      ({ nodes := 5, tracks := [] },
       { errorLogged := false, addFrameCalled := true,
         refineCalled := false }) ∧
    (imageCb rejectAddFrame idRefine false { nodes := 5, tracks := [] }
        okArrival).2.refineCalled = false ∧
    (imageCb rejectAddFrame idRefine false { nodes := 5, tracks := [] }
        okArrival).1.nodes =
      ({ nodes := 5, tracks := [] } : SysSBA).nodes :=
  rejected_frame_no_refine rejectAddFrame idRefine false
    { nodes := 5, tracks := [] } okArrival 10 11 rfl rfl rfl

/-- C7: the colorized cloud extraction is read-only and side-effect
free on the map: the sba state it returns — nodes, tracks, and every
track's projections — is exactly the state it was given. -/
theorem export_side_effect_free (sba : SysSBA) :
    (publishPointclouds sba).1 = sba ∧
    (publishPointclouds sba).1.tracks = sba.tracks ∧
    (publishPointclouds sba).1.nodes = sba.nodes ∧
    (publishPointclouds sba).1.tracks.map Track.projections =
      sba.tracks.map Track.projections := by
  have h := publishPointclouds_fst sba
  exact ⟨h, by rw [h], by rw [h], by rw [h]⟩

/-- C10: in every reachable node state the generic detector handle
refers to an `AnyDetector` — it is constructed as one and never
reassigned from anything else — so the `dynamic_cast` in the
reconfigure callback never yields null and the parameter update never
dereferences a null pointer. -/
theorem configCb_downcast_safe (addFrame : AddFrameOracle)
    (refine : RefineOracle) (subs : Bool) (st : NodeState)
    (h : Reachable addFrame refine subs st)
    (cfg : StereoVslamNodeConfig) :
    (dynamicCastAnyDetector st.detector).isSome = true ∧
    (configCb st cfg).isSome = true := by
  obtain ⟨d, hd⟩ := reachable_detector_any addFrame refine subs st h
  constructor
  · rw [hd]
    rfl
  · unfold configCb
    rw [hd]
    rfl

/-- C10 witness: the downcast succeeds at the constructed state. -/
theorem configCb_downcast_safe_witness :
    (dynamicCastAnyDetector initNodeState.detector).isSome = true ∧
    (configCb initNodeState sampleConfig).isSome = true :=
  configCb_downcast_safe incAddFrame idRefine false initNodeState
    Reachable.init sampleConfig

end Vslam
